import Mathlib

/-!
Verification development for the geopolitical risk agent.

Shallow embedding of `geopolitical_agent.py` and `convert_to_json.py`.
External effects (the OpenAI chat call, `json.loads`, environment variables,
the random generator, the clock, the yfinance history fetch, `pandas.read_csv`)
are modelled as explicit parameters or as small executable models; everything
the code of the repository itself computes is translated directly.
-/

/-- Model of the Python values that can flow out of `json.loads` and through
the analysis dictionaries of `geopolitical_agent.py`: JSON null, booleans,
numbers (modelled as rationals), strings, arrays and objects. -/
inductive PyVal where
  | pnull : PyVal
  | pbool : Bool → PyVal
  | pnum : ℚ → PyVal
  | pstr : String → PyVal
  | plist : List PyVal → PyVal
  | pdict : List (String × PyVal) → PyVal

/-- Python truthiness of an optional string, as used by
`if not self.openai_api_key` (line 143): `os.getenv` yields `None` when the
variable is unset, and both `None` and the empty string are falsy. -/
def isTruthy : Option String → Bool
  | none => false
  | some s => !(s == "")

/-- Outcome of the OpenAI chat-completion call made on lines 147-157:
either the reply text `response.choices[0].message.content`, or an
exception carrying an error message. -/
inductive LLMReply where
  | success (content : String) : LLMReply
  | failure (errMsg : String) : LLMReply

/-! Model of `re.search` with pattern `(?i)score[\s:]*([\d.]+)(?:\s*\/\s*10)?`
(line 169).  The character classes `[\s:]` and `[\d.]` are disjoint, so the
greedy match never backtracks: at each candidate start position the literal
`score` is matched case-insensitively, then a maximal run of space/colon
characters is skipped, and the first capture group is the following maximal
nonempty run of digit/dot characters.  `re.search` returns the leftmost such
match.  The trailing optional `(?:\s*\/\s*10)?` does not affect group 1. -/

/-- Characters matched by the Python class `\s` (ASCII range). -/
def isPySpace (c : Char) : Bool :=
  c == ' ' || c == '\t' || c == '\n' || c == '\r' || c == '\x0b' || c == '\x0c'

/-- Characters matched by the class `[\s:]`. -/
def isSpaceOrColon (c : Char) : Bool := isPySpace c || c == ':'

/-- Characters matched by the class `[\d.]`. -/
def isDigitOrDot (c : Char) : Bool := c.isDigit || c == '.'

/-- Case-insensitive match of a lowercase literal pattern against the head of
the input; returns the remaining input on success. -/
def matchLower : List Char → List Char → Option (List Char)
  | [], cs => some cs
  | _ :: _, [] => none
  | p :: ps, c :: cs => if c.toLower = p then matchLower ps cs else none

/-- Attempt the score pattern anchored at the start of `cs`; on success
return the text of capture group 1. -/
def scoreGroupAt (cs : List Char) : Option (List Char) :=
  match matchLower ['s', 'c', 'o', 'r', 'e'] cs with
  | none => none
  | some rest =>
    let digits := (rest.dropWhile isSpaceOrColon).takeWhile isDigitOrDot
    if digits.isEmpty then none else some digits

/-- Leftmost match of the score pattern: capture group 1 of
`re.search` with the pattern of line 169, or `none`
when the pattern occurs nowhere in the text. -/
def searchScoreGroup : List Char → Option (List Char)
  | [] => none
  | c :: cs =>
    match scoreGroupAt (c :: cs) with
    | some g => some g
    | none => searchScoreGroup cs

/-- Numeric value of a digit string. -/
def digitsToNat (cs : List Char) : ℕ :=
  cs.foldl (fun acc c => 10 * acc + (c.toNat - 48)) 0

/-- Model of Python `float(s)` restricted to the strings capture group 1 can
produce (nonempty runs of digits and dots): at most one dot and at least one
digit yields the value, anything else (`"."`, `"1.2.3"`, ...) raises
`ValueError`, modelled as `none`. -/
def pyFloatOfScoreGroup (cs : List Char) : Option ℚ :=
  let intPart := cs.takeWhile (fun c => c != '.')
  let rest := cs.dropWhile (fun c => c != '.')
  match rest with
  | [] => if cs.isEmpty then none else some ((digitsToNat cs : ℕ) : ℚ)
  | _ :: frac =>
    if frac.any (fun c => c == '.') then none
    else if intPart.isEmpty && frac.isEmpty then none
    else some (mkRat (digitsToNat intPart * 10 ^ frac.length + digitsToNat frac) (10 ^ frac.length))

/-- Translation of `analyze_risk_with_llm` (lines 141-177).  The parameters
model the environment of the call: `openai_api_key` the credential read in
`__init__`, `json_loads` the (pure) behaviour of `json.loads` on reply texts
(`none` = `json.JSONDecodeError`), `reply` the outcome of the chat call, and
`uniform_draw` the value `random.uniform(0, 5)` would produce, constrained to
`[0, 5]` by hypotheses where it matters.  The function is total because every
exception inside the body is caught by the body itself: the result models the
returned dictionary (or, on the JSON-parse success path, whatever value
`json.loads` produced, returned as is).  JSON `NaN`/`Infinity` floats have no
rational counterpart and are outside this model; note that even for those the
Python expression `min(10, max(0, x))` yields a value in `[0, 10]`. -/
def analyze_risk_with_llm (openai_api_key : Option String)
    (json_loads : String → Option PyVal) (reply : LLMReply)
    (uniform_draw : ℚ) : PyVal :=
  if isTruthy openai_api_key = false then
    .pdict [("score", .pnum uniform_draw), ("reasoning", .pstr "LLM not available")]
  else
    match reply with
    | .failure msg =>
        .pdict [("score", .pnum uniform_draw), ("reasoning", .pstr ("Error: " ++ msg))]
    | .success content =>
        match json_loads content with
        | some v => v
        | none =>
          match searchScoreGroup content.toList with
          | none => .pdict [("score", .pnum 0), ("reasoning", .pstr content)]
          | some g =>
            match pyFloatOfScoreGroup g with
            | some x =>
                .pdict [("score", .pnum (min 10 (max 0 x))), ("reasoning", .pstr content)]
            | none =>
                .pdict [("score", .pnum uniform_draw),
                        ("reasoning", .pstr ("Error: could not convert string to float: " ++ String.mk g))]

/-- The assessment record built on lines 222-229.  Field types follow the
Python values: `explanation` and `key_indicators` are whatever values the
analysis dictionary supplied (arbitrary `PyVal`s), `score` is the clamped
number. -/
structure Assessment where
  country : String
  category : String
  score : ℚ
  explanation : PyVal
  key_indicators : PyVal
  timestamp : String

/-- Python `kvs.get(key, default)` on a dictionary. -/
def dict_get (kvs : List (String × PyVal)) (key : String) (default : PyVal) : PyVal :=
  (kvs.lookup key).getD default

/-- The expression `min(10, max(0, v))` of line 220.  It raises `TypeError`
(modelled `none`) unless `v` is a number — Python booleans are integers, so
`True`/`False` clamp to 1/0 without raising. -/
def clamp_0_10 : PyVal → Option ℚ
  | .pnum x => some (min 10 (max 0 x))
  | .pbool b => some (if b then 1 else 0)
  | _ => none

/-- Translation of `assess_category_risk` (lines 179-229), given the value
`analysis` returned by `analyze_risk_with_llm` and the current UTC timestamp
string.  The web/news searches and the prompt construction (lines 182-215)
only determine the text sent to the language model — both search adapters
catch all their exceptions and return a list, and `json.dumps`/f-strings on
such data cannot raise — so they are absorbed into the oracle that produces
`analysis`.  The only statements that can raise are `analysis.get`
(`AttributeError` when `analysis` is not a dictionary) and the clamp
(`TypeError` on non-numeric scores); a raise is modelled as `none`. -/
def assess_category_risk (category country : String) (analysis : PyVal)
    (utc_now : String) : Option Assessment :=
  match analysis with
  | .pdict kvs =>
    match clamp_0_10 (dict_get kvs "score" (.pnum 0)) with
    | none => none
    | some score =>
        some { country := country, category := category, score := score,
               explanation := dict_get kvs "explanation" (.pstr "No explanation provided"),
               key_indicators := dict_get kvs "key_indicators" (.plist []),
               timestamp := utc_now }
  | _ => none

/-- The category taxonomy of `__init__` (lines 39-51), in source order. -/
def categories : List String :=
  ["Global Indicator",
   "Global Trade Protectionism",
   "Emerging Market Political Crisis",
   "Global Technology Decoupling",
   "Major Terror Attacks",
   "European Fragmentation",
   "Russia-NATO Conflict",
   "U.S. China Strategic Competition",
   "Middle East Regional War",
   "North Korea Conflict",
   "Major Cyber Attacks"]

/-- The country list of `__init__` (lines 54-59), in source order. -/
def countries : List String :=
  ["United States", "China", "Russia", "Germany", "United Kingdom",
   "France", "Japan", "India", "Brazil", "South Africa",
   "Saudi Arabia", "Iran", "North Korea", "South Korea", "Ukraine",
   "Israel", "Turkey", "Mexico", "Canada", "Australia"]

/-- The per-category country selection of line 241: the two global
categories iterate over the single pseudo-country `"Global"`, every other
category over the full country list. -/
def countries_to_analyze (category : String) : List String :=
  if category = "Global Indicator" ∨ category = "Global Trade Protectionism" then
    ["Global"]
  else countries

/-- Translation of the loop body of `generate_report` (lines 231-255), with
the per-pair work abstracted as `assess : category → country → Option
Assessment` (`none` = the `try` block raised, so the `except` arm skips the
append, named `try_append` here).  The folds mirror the two nested `for`
loops and the growing `report` list; `print` and `time.sleep` have no effect
on the report. -/
def try_append (report : List Assessment) (res : Option Assessment) : List Assessment :=
  match res with
  | some result => report ++ [result]
  | none => report

def generate_report (assess : String → String → Option Assessment) : List Assessment :=
  categories.foldl
    (fun report category =>
      (countries_to_analyze category).foldl
        (fun report country => try_append report (assess category country))
        report)
    []

/-- The full run: `generate_report` with each pair assessed by the real
`assess_category_risk` over `analyze_risk_with_llm`, the external effects
supplied per (category, country) pair — `llm` the chat-call outcome for the
prompt of that pair, `rand` the `random.uniform(0, 5)` draw, `clock` the
`datetime.utcnow().isoformat()` string. -/
def run_generate_report (openai_api_key : Option String)
    (json_loads : String → Option PyVal)
    (llm : String → String → LLMReply)
    (rand : String → String → ℚ)
    (clock : String → String → String) : List Assessment :=
  generate_report (fun category country =>
    assess_category_risk category country
      (analyze_risk_with_llm openai_api_key json_loads (llm category country)
        (rand category country))
      (clock category country))

/-- The record built by `get_financial_data` (lines 116-120); the dictionary
keys in the source are `"latest_price"`, `"volatility"` and `"volume"`, the
last one holding the mean traded volume. -/
structure FinancialSummary where
  latest_price : ℚ
  volatility : ℝ
  volume : ℚ

/-- Model of `hist["Close"].pct_change()` with the leading `NaN` entry
dropped: `pandas.Series.std` skips missing values by default, so only the
day-over-day ratios `close[i] / close[i-1] - 1` for `i ≥ 1` enter the
statistic. -/
def pct_change (closes : List ℚ) : List ℚ :=
  (closes.zip closes.tail).map (fun p => p.2 / p.1 - 1)

/-- Arithmetic mean of a list of rationals (`pandas.Series.mean`); the
division is only meaningful for nonempty lists, which is all the source ever
feeds it (the empty-history case returns earlier). -/
def listMean (l : List ℚ) : ℚ := l.sum / l.length

/-- Sample standard deviation (`pandas.Series.std`, `ddof = 1`).  For lists
with fewer than two entries pandas yields `NaN`; this model yields `0`
there (division by a nonpositive count), a case no claim touches. -/
noncomputable def sampleStd (l : List ℚ) : ℝ :=
  Real.sqrt ((l.map (fun x => ((x : ℝ) - (listMean l : ℝ)) ^ 2)).sum / ((l.length : ℝ) - 1))

/-- Translation of `get_financial_data` (lines 107-123).  The yfinance
history fetch is the parameter: `none` models an exception anywhere in the
`try` block (caught, `{}` returned), `some hist` the fetched rows as
(close, volume) pairs.  The empty mapping `{}` is modelled as `none`. -/
noncomputable def get_financial_data (fetch : Option (List (ℚ × ℚ))) :
    Option FinancialSummary :=
  match fetch with
  | none => none
  | some hist =>
    if hist.isEmpty then none
    else
      some { latest_price := ((hist.map Prod.fst).getLast?).getD 0,
             volatility := sampleStd (pct_change (hist.map Prod.fst)) * 100,
             volume := listMean (hist.map Prod.snd) }

/-- Spec-side definition, following the spec words only: the day-over-day
percentage change of the closing price is, for each consecutive pair of
closing prices, (today - yesterday) / yesterday. -/
def spec_day_over_day_change (closes : List ℚ) : List ℚ :=
  (closes.zip closes.tail).map (fun p => (p.2 - p.1) / p.1)

/-- Spec-side definition, following the spec words only: volatility is the
standard deviation of the day-over-day percentage change of the closing
price, expressed as a percentage. -/
noncomputable def spec_volatility (closes : List ℚ) : ℝ :=
  sampleStd (spec_day_over_day_change closes) * 100

/-- A parsed tabular (CSV) file: header row and data rows of cell strings,
as `pandas.read_csv` sees them. -/
structure CsvTable where
  header : List String
  rows : List (List String)

/-- Digit/dot strings with an optional leading minus sign, as parsed by the
numeric inference of the pandas CSV reader; restricted to the numeric formats the
claims exercise (no exponents, thousands separators or infinities). -/
def parseUnsignedNum (cs : List Char) : Option ℚ :=
  if cs.all isDigitOrDot then pyFloatOfScoreGroup cs else none

/-- Numeric value of one CSV cell, when pandas would parse it as a number. -/
def csvCellNum (s : String) : Option ℚ :=
  match s.toList with
  | '-' :: rest => (parseUnsignedNum rest).map Neg.neg
  | cs => parseUnsignedNum cs

/-- Column `j` is read as numeric exactly when every cell in it parses as a
number (pandas infers dtypes per column). -/
def numericCol (t : CsvTable) (j : ℕ) : Bool :=
  t.rows.all (fun r => (csvCellNum (r.getD j "")).isSome)

/-- Model of `pd.read_csv(csv_file_path)` followed by
`df.to_dict` with the records orientation (lines 18-21 of `convert_to_json.py`): one
key-to-value record per data row, keys taken from the header in order, each
value the cell string except in all-numeric columns, which pandas converts
to numbers.  The int/float display distinction of `json.dump` (`12` vs
`12.0`) is not modelled, only the numeric value. -/
def readCsvRecords (t : CsvTable) : List (List (String × PyVal)) :=
  t.rows.map (fun r =>
    t.header.zip ((List.range t.header.length).map (fun j =>
      if numericCol t j then PyVal.pnum ((csvCellNum (r.getD j "")).getD 0)
      else PyVal.pstr (r.getD j ""))))

/-- Model of `Path(p).with_suffix` for `.json` applied to the final path
component: strip the pathlib suffix (the part from the last dot of the name,
provided that dot is neither the first nor the last character of the name)
and append `.json`. -/
def dropLastExt (name : List Char) : List Char :=
  let r := name.reverse
  let ext := r.takeWhile (fun c => c != '.')
  match r.dropWhile (fun c => c != '.') with
  | [] => name
  | _ :: stemRev => if stemRev.isEmpty || ext.isEmpty then name else stemRev.reverse

/-- The default output path of `convert_csv_to_json` (line 25): the input
path with its extension replaced by `.json`. -/
def with_suffix_json (p : String) : String :=
  let cs := p.toList
  let revName := cs.reverse.takeWhile (fun c => c != '/')
  let revDir := cs.reverse.dropWhile (fun c => c != '/')
  String.mk (revDir.reverse ++ dropLastExt revName.reverse ++ ".json".toList)

/-- Translation of `convert_csv_to_json` (`convert_to_json.py`, lines 5-32),
up to file I/O: the parsed input table is the parameter, the result is the
output path actually written to (the explicit `json_file_path` when given,
otherwise the input path with its extension replaced by `.json`) together
with the record list that `json.dump` serializes into it (4-space indent,
overwriting any existing file — the write itself is outside the model). -/
def convert_csv_to_json (csv_file_path : String) (table : CsvTable)
    (json_file_path : Option String) : String × List (List (String × PyVal)) :=
  let data := readCsvRecords table
  let out := json_file_path.getD (with_suffix_json csv_file_path)
  (out, data)


/-! Helper lemmas: the report loop is a `filterMap` over the taxonomy, the
assessment record carries its pair, and the clamp stays in range. -/

theorem try_append_none (r : List Assessment) : try_append r none = r := rfl

theorem try_append_some (r : List Assessment) (a : Assessment) :
    try_append r (some a) = r ++ [a] := rfl

theorem foldl_try_append (f : String → Option Assessment) :
    ∀ (l : List String) (init : List Assessment),
      l.foldl (fun r x => try_append r (f x)) init = init ++ l.filterMap f := by
  intro l
  induction l with
  | nil => intro init; simp
  | cons x xs ih =>
    intro init
    rw [List.foldl_cons]
    cases h : f x with
    | none => rw [try_append_none, ih]; simp [List.filterMap_cons, h]
    | some a => rw [try_append_some, ih]; simp [List.filterMap_cons, h]

theorem generate_report_eq (assess : String → String → Option Assessment) :
    generate_report assess
      = categories.flatMap (fun c => (countries_to_analyze c).filterMap (assess c)) := by
  have haux : ∀ (cats : List String) (init : List Assessment),
      cats.foldl (fun report category =>
        (countries_to_analyze category).foldl
          (fun report country => try_append report (assess category country)) report) init
        = init ++ cats.flatMap (fun c => (countries_to_analyze c).filterMap (assess c)) := by
    intro cats
    induction cats with
    | nil => intro init; simp
    | cons c cs ih =>
      intro init
      rw [List.foldl_cons, foldl_try_append (assess c), ih]
      simp
  simpa [generate_report] using haux categories []

theorem mem_generate_report {assess : String → String → Option Assessment} {a : Assessment} :
    a ∈ generate_report assess
      ↔ ∃ c ∈ categories, ∃ k ∈ countries_to_analyze c, assess c k = some a := by
  rw [generate_report_eq]
  simp [List.mem_flatMap, List.mem_filterMap]

theorem assess_category_risk_tags {category country : String} {analysis : PyVal}
    {utc_now : String} {a : Assessment}
    (h : assess_category_risk category country analysis utc_now = some a) :
    a.category = category ∧ a.country = country ∧ a.timestamp = utc_now := by
  cases analysis with
  | pdict kvs =>
    simp only [assess_category_risk] at h
    cases hc : clamp_0_10 (dict_get kvs "score" (.pnum 0)) with
    | none => rw [hc] at h; cases h
    | some q =>
      rw [hc] at h
      rw [Option.some_inj] at h
      subst h
      exact ⟨rfl, rfl, rfl⟩
  | pnull => cases h
  | pbool b => cases h
  | pnum x => cases h
  | pstr s => cases h
  | plist xs => cases h

theorem clamp_0_10_mem {v : PyVal} {q : ℚ} (h : clamp_0_10 v = some q) :
    0 ≤ q ∧ q ≤ 10 := by
  cases v with
  | pnum x =>
    simp [clamp_0_10] at h
    subst h
    exact ⟨le_min (by norm_num) (le_max_left 0 x), min_le_left 10 (max 0 x)⟩
  | pbool b =>
    simp [clamp_0_10] at h
    subst h
    cases b <;> norm_num
  | pnull => cases h
  | pstr s => cases h
  | plist xs => cases h
  | pdict kvs => cases h

theorem assess_category_risk_score_mem {category country : String} {analysis : PyVal}
    {utc_now : String} {a : Assessment}
    (h : assess_category_risk category country analysis utc_now = some a) :
    0 ≤ a.score ∧ a.score ≤ 10 := by
  cases analysis with
  | pdict kvs =>
    simp only [assess_category_risk] at h
    cases hc : clamp_0_10 (dict_get kvs "score" (.pnum 0)) with
    | none => rw [hc] at h; cases h
    | some q =>
      rw [hc] at h
      rw [Option.some_inj] at h
      subst h
      exact clamp_0_10_mem hc
  | pnull => cases h
  | pbool b => cases h
  | pnum x => cases h
  | pstr s => cases h
  | plist xs => cases h

/-- C1: for every Assessment appended to any produced Report, the score
satisfies 0 ≤ score ≤ 10 — the score taken from the language-model analysis
is clamped by `min(10, max(0, ·))` at extraction time (line 220), regardless
of what the model returned.  Stated both for a single assessment and for
every member of a full report run. -/
theorem c1_report_scores_in_range :
    (∀ (category country : String) (analysis : PyVal) (utc_now : String) (a : Assessment),
        assess_category_risk category country analysis utc_now = some a →
          0 ≤ a.score ∧ a.score ≤ 10) ∧
    (∀ (openai_api_key : Option String) (json_loads : String → Option PyVal)
        (llm : String → String → LLMReply) (rand : String → String → ℚ)
        (clock : String → String → String) (a : Assessment),
        a ∈ run_generate_report openai_api_key json_loads llm rand clock →
          0 ≤ a.score ∧ a.score ≤ 10) := by
  refine ⟨fun category country analysis utc_now a h => assess_category_risk_score_mem h, ?_⟩
  intro openai_api_key json_loads llm rand clock a ha
  simp only [run_generate_report] at ha
  rw [mem_generate_report] at ha
  obtain ⟨c, -, k, -, h⟩ := ha
  exact assess_category_risk_score_mem h

theorem c1_report_scores_in_range_witness :
    0 ≤ ({ country := "Ukraine", category := "Russia-NATO Conflict", score := 10,
           explanation := PyVal.pstr "No explanation provided",
           key_indicators := PyVal.plist [], timestamp := "t" } : Assessment).score ∧
    ({ country := "Ukraine", category := "Russia-NATO Conflict", score := 10,
       explanation := PyVal.pstr "No explanation provided",
       key_indicators := PyVal.plist [], timestamp := "t" } : Assessment).score ≤ 10 :=
  c1_report_scores_in_range.1 "Russia-NATO Conflict" "Ukraine"
    (.pdict [("score", .pnum 12)]) "t" _ rfl

/-- C2 counterexample: for the non-JSON model reply
"Risk score: 12 out of 10 due to tension" (the parse oracle returns `none`
on it, as `json.loads` raises `json.JSONDecodeError` on a text that does not
begin a JSON value), the produced Assessment has score 10 as the claim says,
but its explanation is the literal default "No explanation provided", not
the raw reply text — refuting the explanation half of the claim. -/
theorem c2_counterexample :
    assess_category_risk "Russia-NATO Conflict" "Ukraine"
      (analyze_risk_with_llm (some "sk-test") (fun _ => none)
        (.success "Risk score: 12 out of 10 due to tension") 0)
      "2025-07-07T00:00:00"
      = some { country := "Ukraine", category := "Russia-NATO Conflict", score := 10,
               explanation := .pstr "No explanation provided",
               key_indicators := .plist [], timestamp := "2025-07-07T00:00:00" } ∧
    PyVal.pstr "No explanation provided"
      ≠ PyVal.pstr "Risk score: 12 out of 10 due to tension" :=
  ⟨rfl, fun h => absurd (PyVal.pstr.inj h) (by decide)⟩

/-- C2 amended: for the model reply "Risk score: 12 out of 10 due to
tension" (not valid JSON), the numeric-extraction heuristic yields a score
clamped to exactly 10 (not 12); the full raw reply text is kept under the
"reasoning" key of the scorer, which the Assessment never reads, so the explanation of the
resulting Assessment is the default string "No explanation provided". -/
theorem c2_amended_heuristic_clamps_to_ten :
    analyze_risk_with_llm (some "sk-test") (fun _ => none)
      (.success "Risk score: 12 out of 10 due to tension") 0
      = .pdict [("score", .pnum 10),
                ("reasoning", .pstr "Risk score: 12 out of 10 due to tension")] ∧
    assess_category_risk "Russia-NATO Conflict" "Ukraine"
      (analyze_risk_with_llm (some "sk-test") (fun _ => none)
        (.success "Risk score: 12 out of 10 due to tension") 0)
      "2025-07-07T00:00:00"
      = some { country := "Ukraine", category := "Russia-NATO Conflict", score := 10,
               explanation := .pstr "No explanation provided",
               key_indicators := .plist [], timestamp := "2025-07-07T00:00:00" } :=
  ⟨rfl, rfl⟩

/-- C5: with no language-model credential configured (unset or empty
environment variable), the scorer returns — without raising, since the
function is total — the fallback dictionary whose score is exactly the
uniform draw from [0, 5] and whose explanatory note is the non-empty string
"LLM not available" (stored under the "reasoning" key). -/
theorem c5_degraded_mode_fallback (openai_api_key : Option String)
    (json_loads : String → Option PyVal) (reply : LLMReply) (uniform_draw : ℚ)
    (hkey : isTruthy openai_api_key = false)
    (h0 : 0 ≤ uniform_draw) (h5 : uniform_draw ≤ 5) :
    analyze_risk_with_llm openai_api_key json_loads reply uniform_draw
      = .pdict [("score", .pnum uniform_draw), ("reasoning", .pstr "LLM not available")] ∧
    0 ≤ uniform_draw ∧ uniform_draw ≤ 5 ∧ "LLM not available" ≠ "" := by
  refine ⟨?_, h0, h5, by decide⟩
  simp [analyze_risk_with_llm, hkey]

theorem c5_degraded_mode_fallback_witness :
    analyze_risk_with_llm none (fun _ => none) (.success "sample reply") 3
      = .pdict [("score", .pnum 3), ("reasoning", .pstr "LLM not available")] ∧
    0 ≤ (3 : ℚ) ∧ (3 : ℚ) ≤ 5 ∧ "LLM not available" ≠ "" :=
  c5_degraded_mode_fallback none (fun _ => none) (.success "sample reply") 3
    rfl (by norm_num) (by norm_num)

/-- C9: for every model reply that fails strict JSON parsing and contains no
substring matching the case-insensitive pattern `score[\s:]*<number>`, the
heuristic path returns score exactly 0 — not a random fallback — and the
resulting Assessment has score 0. -/
theorem c9_no_match_yields_zero (openai_api_key : Option String)
    (json_loads : String → Option PyVal) (content : String) (uniform_draw : ℚ)
    (category country utc_now : String)
    (hkey : isTruthy openai_api_key = true)
    (hparse : json_loads content = none)
    (hmatch : searchScoreGroup content.toList = none) :
    analyze_risk_with_llm openai_api_key json_loads (.success content) uniform_draw
      = .pdict [("score", .pnum 0), ("reasoning", .pstr content)] ∧
    assess_category_risk category country
      (analyze_risk_with_llm openai_api_key json_loads (.success content) uniform_draw)
      utc_now
      = some { country := country, category := category, score := 0,
               explanation := .pstr "No explanation provided",
               key_indicators := .plist [], timestamp := utc_now } := by
  have hmatch' : searchScoreGroup content.data = none := hmatch
  have hd : analyze_risk_with_llm openai_api_key json_loads (.success content) uniform_draw
      = .pdict [("score", .pnum 0), ("reasoning", .pstr content)] := by
    simp [analyze_risk_with_llm, hkey, hparse, hmatch']
  refine ⟨hd, ?_⟩
  rw [hd]
  rfl

theorem c9_no_match_yields_zero_witness :
    analyze_risk_with_llm (some "sk-test") (fun _ => none)
      (.success "all quiet, nothing to report") 4
      = .pdict [("score", .pnum 0),
                ("reasoning", .pstr "all quiet, nothing to report")] ∧
    assess_category_risk "Major Cyber Attacks" "Japan"
      (analyze_risk_with_llm (some "sk-test") (fun _ => none)
        (.success "all quiet, nothing to report") 4)
      "t"
      = some { country := "Japan", category := "Major Cyber Attacks", score := 0,
               explanation := .pstr "No explanation provided",
               key_indicators := .plist [], timestamp := "t" } :=
  c9_no_match_yields_zero (some "sk-test") (fun _ => none)
    "all quiet, nothing to report" 4 "Major Cyber Attacks" "Japan" "t"
    rfl rfl rfl

/-- Shared helper: looking up the two fixed keys in a score/reasoning
dictionary, and the assessment it produces. -/
theorem assess_score_reasoning_dict (category country utc_now : String)
    (s : ℚ) (t : String) :
    List.lookup "reasoning" [("score", PyVal.pnum s), ("reasoning", PyVal.pstr t)]
      = some (.pstr t) ∧
    List.lookup "explanation" [("score", PyVal.pnum s), ("reasoning", PyVal.pstr t)]
      = none ∧
    assess_category_risk category country
      (.pdict [("score", .pnum s), ("reasoning", .pstr t)]) utc_now
      = some { country := country, category := category, score := min 10 (max 0 s),
               explanation := .pstr "No explanation provided",
               key_indicators := .plist [], timestamp := utc_now } :=
  ⟨rfl, rfl, rfl⟩

/-- Shared helper: the conclusion of claim C7 follows once the analysis
dictionary is known to have the score/reasoning shape. -/
theorem c7_shape_assemble (openai_api_key : Option String)
    (json_loads : String → Option PyVal) (reply : LLMReply) (uniform_draw : ℚ)
    (category country utc_now : String) (s : ℚ) (t : String)
    (hEq : analyze_risk_with_llm openai_api_key json_loads reply uniform_draw
      = .pdict [("score", .pnum s), ("reasoning", .pstr t)]) :
    ∃ kvs, analyze_risk_with_llm openai_api_key json_loads reply uniform_draw
        = .pdict kvs ∧
      (∃ text, kvs.lookup "reasoning" = some (.pstr text)) ∧
      kvs.lookup "explanation" = none ∧
      ∃ a, assess_category_risk category country
             (analyze_risk_with_llm openai_api_key json_loads reply uniform_draw)
             utc_now = some a ∧
           a.explanation = .pstr "No explanation provided" := by
  refine ⟨[("score", .pnum s), ("reasoning", .pstr t)], hEq, ⟨t, rfl⟩, rfl,
    { country := country, category := category, score := min 10 (max 0 s),
      explanation := .pstr "No explanation provided",
      key_indicators := .plist [], timestamp := utc_now }, ?_, rfl⟩
  rw [hEq]
  exact (assess_score_reasoning_dict category country utc_now s t).2.2

/-- C7: whenever the model reply is not valid JSON, or the scorer is in
degraded mode (no credential configured, or the chat call raised), the
dictionary returned by the scorer carries its text under the "reasoning" key
and has no "explanation" key, so the explanation field of the produced
Assessment is exactly the literal default string "No explanation provided". -/
theorem c7_reasoning_key_never_read (openai_api_key : Option String)
    (json_loads : String → Option PyVal) (reply : LLMReply) (uniform_draw : ℚ)
    (category country utc_now : String)
    (hdeg : isTruthy openai_api_key = false
          ∨ (∃ msg, reply = .failure msg)
          ∨ (∃ content, reply = .success content ∧ json_loads content = none)) :
    ∃ kvs, analyze_risk_with_llm openai_api_key json_loads reply uniform_draw
        = .pdict kvs ∧
      (∃ text, kvs.lookup "reasoning" = some (.pstr text)) ∧
      kvs.lookup "explanation" = none ∧
      ∃ a, assess_category_risk category country
             (analyze_risk_with_llm openai_api_key json_loads reply uniform_draw)
             utc_now = some a ∧
           a.explanation = .pstr "No explanation provided" := by
  cases hb : isTruthy openai_api_key with
  | false =>
    exact c7_shape_assemble _ _ _ _ _ _ _ uniform_draw "LLM not available"
      (by simp [analyze_risk_with_llm, hb])
  | true =>
    rcases hdeg with h1 | ⟨msg, hmsg⟩ | ⟨content, hc, hparse⟩
    · rw [hb] at h1; cases h1
    · subst hmsg
      exact c7_shape_assemble _ _ _ _ _ _ _ uniform_draw ("Error: " ++ msg)
        (by simp [analyze_risk_with_llm, hb])
    · subst hc
      cases hm : searchScoreGroup content.data with
      | none =>
        exact c7_shape_assemble _ _ _ _ _ _ _ 0 content
          (by simp [analyze_risk_with_llm, hb, hparse, hm])
      | some g =>
        cases hf : pyFloatOfScoreGroup g with
        | none =>
          exact c7_shape_assemble _ _ _ _ _ _ _ uniform_draw
            ("Error: could not convert string to float: " ++ String.mk g)
            (by simp [analyze_risk_with_llm, hb, hparse, hm, hf])
        | some x =>
          exact c7_shape_assemble _ _ _ _ _ _ _ (min 10 (max 0 x)) content
            (by simp [analyze_risk_with_llm, hb, hparse, hm, hf])

theorem c7_reasoning_key_never_read_witness :
    ∃ kvs, analyze_risk_with_llm none (fun _ => none) (.success "quiet day") 2
        = .pdict kvs ∧
      (∃ text, kvs.lookup "reasoning" = some (.pstr text)) ∧
      kvs.lookup "explanation" = none ∧
      ∃ a, assess_category_risk "North Korea Conflict" "South Korea"
             (analyze_risk_with_llm none (fun _ => none) (.success "quiet day") 2)
             "t" = some a ∧
           a.explanation = .pstr "No explanation provided" :=
  c7_reasoning_key_never_read none (fun _ => none) (.success "quiet day") 2
    "North Korea Conflict" "South Korea" "t" (Or.inl rfl)

/-- Shared helper: when the in-loop assessment of one (category, country)
pair raises — returns `none` — no assessment carrying that pair appears in
the produced report. -/
theorem not_in_report_of_pair_fails (openai_api_key : Option String)
    (json_loads : String → Option PyVal)
    (llm : String → String → LLMReply) (rand : String → String → ℚ)
    (clock : String → String → String) (c₀ k₀ : String)
    (hfail : assess_category_risk c₀ k₀
        (analyze_risk_with_llm openai_api_key json_loads (llm c₀ k₀) (rand c₀ k₀))
        (clock c₀ k₀) = none) :
    ∀ a ∈ run_generate_report openai_api_key json_loads llm rand clock,
      ¬(a.category = c₀ ∧ a.country = k₀) := by
  rintro a ha ⟨hac, hak⟩
  simp only [run_generate_report] at ha
  rw [mem_generate_report] at ha
  obtain ⟨c, -, k, -, h⟩ := ha
  obtain ⟨h1, h2, -⟩ := assess_category_risk_tags h
  have hc : c = c₀ := by rw [← h1, hac]
  have hk : k = k₀ := by rw [← h2, hak]
  subst hc; subst hk
  rw [hfail] at h
  cases h

/-- C4: if an uncaught exception is raised while assessing one
(category, country) pair, `generate_report` appends no Assessment for that
pair — no assessment in the report carries that pair — and continues with
the other pairs: every pair whose assessment succeeds still contributes its
Assessment to the report, so the failure of a single pair never aborts the run. -/
theorem c4_pair_failure_skipped (openai_api_key : Option String)
    (json_loads : String → Option PyVal)
    (llm : String → String → LLMReply) (rand : String → String → ℚ)
    (clock : String → String → String) (c₀ k₀ : String)
    (hfail : assess_category_risk c₀ k₀
        (analyze_risk_with_llm openai_api_key json_loads (llm c₀ k₀) (rand c₀ k₀))
        (clock c₀ k₀) = none) :
    (∀ a ∈ run_generate_report openai_api_key json_loads llm rand clock,
        ¬(a.category = c₀ ∧ a.country = k₀)) ∧
    (∀ c ∈ categories, ∀ k ∈ countries_to_analyze c, ∀ a,
        assess_category_risk c k
            (analyze_risk_with_llm openai_api_key json_loads (llm c k) (rand c k))
            (clock c k) = some a →
        a ∈ run_generate_report openai_api_key json_loads llm rand clock) := by
  refine ⟨not_in_report_of_pair_fails _ _ _ _ _ _ _ hfail, ?_⟩
  intro c hc k hk a h
  simp only [run_generate_report]
  rw [mem_generate_report]
  exact ⟨c, hc, k, hk, h⟩

theorem c4_pair_failure_skipped_witness :
    (∀ a ∈ run_generate_report (some "sk-test") (fun _ => some (.plist []))
        (fun _ _ => .success "[]") (fun _ _ => 0) (fun _ _ => "t"),
        ¬(a.category = "Global Indicator" ∧ a.country = "Global")) ∧
    (∀ c ∈ categories, ∀ k ∈ countries_to_analyze c, ∀ a,
        assess_category_risk c k
            (analyze_risk_with_llm (some "sk-test") (fun _ => some (.plist []))
              ((fun _ _ => LLMReply.success "[]") c k) ((fun _ _ => (0 : ℚ)) c k))
            ((fun _ _ => "t") c k) = some a →
        a ∈ run_generate_report (some "sk-test") (fun _ => some (.plist []))
              (fun _ _ => .success "[]") (fun _ _ => 0) (fun _ _ => "t")) :=
  c4_pair_failure_skipped (some "sk-test") (fun _ => some (.plist []))
    (fun _ _ => .success "[]") (fun _ _ => 0) (fun _ _ => "t")
    "Global Indicator" "Global" rfl

/-- C10 counterexample: the model reply `{"risk": 7}` parses as JSON to an
object that has no numeric "score" field at all, yet the clamp does not
raise — `analysis.get("score", 0)` substitutes the default 0 — and the pair
yields an Assessment with score 0, refuting the universal statement of the claim
that every parsed-but-not-numeric-score reply yields no Assessment. -/
theorem c10_counterexample :
    assess_category_risk "Major Cyber Attacks" "Japan"
      (analyze_risk_with_llm (some "sk-test")
        (fun _ => some (.pdict [("risk", .pnum 7)]))
        (.success "\x7b\"risk\": 7\x7d") 3)
      "t"
      = some { country := "Japan", category := "Major Cyber Attacks", score := 0,
               explanation := .pstr "No explanation provided",
               key_indicators := .plist [], timestamp := "t" } :=
  rfl

/-- C10 amended: if the model reply parses as JSON and either the top-level
value is not an object (a list, string, number, boolean or null), or its
"score" value is present but is neither a number nor a boolean (a string,
array, object or null), then line 220 raises (an `AttributeError` from
`.get` on a non-dictionary, resp. a `TypeError` from the comparison in
`min`/`max`) instead of coercing, the exception is caught at the loop
boundary, and that (category, country) pair yields no Assessment at all; a
parsed object that merely lacks the "score" field instead falls back to the
default 0 and does yield an Assessment, and a boolean score clamps to 0 or 1
without raising (Python booleans are integers). -/
theorem c10_amended_bad_score_skips_pair (openai_api_key : Option String)
    (json_loads : String → Option PyVal)
    (llm : String → String → LLMReply) (rand : String → String → ℚ)
    (clock : String → String → String) (c₀ k₀ content : String) (v : PyVal)
    (hkey : isTruthy openai_api_key = true)
    (hcall : llm c₀ k₀ = .success content)
    (hparse : json_loads content = some v)
    (hbad : (∀ kvs, v ≠ PyVal.pdict kvs)
          ∨ (∃ kvs w, v = PyVal.pdict kvs ∧ kvs.lookup "score" = some w
               ∧ ((∃ s, w = PyVal.pstr s) ∨ (∃ xs, w = PyVal.plist xs)
                  ∨ (∃ ws, w = PyVal.pdict ws) ∨ w = PyVal.pnull))) :
    assess_category_risk c₀ k₀
      (analyze_risk_with_llm openai_api_key json_loads (llm c₀ k₀) (rand c₀ k₀))
      (clock c₀ k₀) = none ∧
    ∀ a ∈ run_generate_report openai_api_key json_loads llm rand clock,
      ¬(a.category = c₀ ∧ a.country = k₀) := by
  have hv : analyze_risk_with_llm openai_api_key json_loads (llm c₀ k₀) (rand c₀ k₀)
      = v := by
    rw [hcall]; simp [analyze_risk_with_llm, hkey, hparse]
  have hnone : assess_category_risk c₀ k₀
      (analyze_risk_with_llm openai_api_key json_loads (llm c₀ k₀) (rand c₀ k₀))
      (clock c₀ k₀) = none := by
    rw [hv]
    rcases hbad with hnd | ⟨kvs, w, rfl, hs, hw⟩
    · cases v with
      | pdict kvs => exact absurd rfl (hnd kvs)
      | pnull => rfl
      | pbool b => rfl
      | pnum x => rfl
      | pstr s => rfl
      | plist xs => rfl
    · rcases hw with ⟨s, rfl⟩ | ⟨xs, rfl⟩ | ⟨ws, rfl⟩ | rfl <;>
        simp [assess_category_risk, dict_get, hs, clamp_0_10]
  exact ⟨hnone, not_in_report_of_pair_fails _ _ _ _ _ _ _ hnone⟩

theorem c10_amended_bad_score_skips_pair_witness :
    assess_category_risk "Global Indicator" "Global"
      (analyze_risk_with_llm (some "sk-test")
        (fun _ => some (.pdict [("score", .pnull)]))
        ((fun _ _ => LLMReply.success "\x7b\"score\": null\x7d") "Global Indicator" "Global")
        ((fun _ _ => (0 : ℚ)) "Global Indicator" "Global"))
      ((fun _ _ => "t") "Global Indicator" "Global") = none ∧
    ∀ a ∈ run_generate_report (some "sk-test")
        (fun _ => some (.pdict [("score", .pnull)]))
        (fun _ _ => .success "\x7b\"score\": null\x7d") (fun _ _ => 0) (fun _ _ => "t"),
      ¬(a.category = "Global Indicator" ∧ a.country = "Global") :=
  c10_amended_bad_score_skips_pair (some "sk-test")
    (fun _ => some (.pdict [("score", .pnull)]))
    (fun _ _ => .success "\x7b\"score\": null\x7d")
    (fun _ _ => 0) (fun _ _ => "t") "Global Indicator" "Global"
    "\x7b\"score\": null\x7d" (.pdict [("score", .pnull)]) rfl rfl rfl
    (Or.inr ⟨[("score", .pnull)], .pnull, rfl, rfl, Or.inr (Or.inr (Or.inr rfl))⟩)

/-- Shared helper: when every country in a list assesses successfully, the
(category, country) pairs of the produced assessments are exactly the pairs
of that list, in order. -/
theorem filterMap_pairs_map (assess : String → String → Option Assessment)
    (htag : ∀ c k a, assess c k = some a → a.category = c ∧ a.country = k)
    (c : String) :
    ∀ l : List String, (∀ k ∈ l, (assess c k).isSome) →
      (l.filterMap (assess c)).map (fun a => (a.category, a.country))
        = l.map (fun k => (c, k)) := by
  intro l
  induction l with
  | nil => intro h; simp
  | cons k ks ih =>
    intro hall
    obtain ⟨a, ha⟩ := Option.isSome_iff_exists.mp (hall k (List.mem_cons_self k ks))
    simp only [List.filterMap_cons, ha, List.map_cons]
    obtain ⟨hc, hk2⟩ := htag c k a ha
    rw [hc, hk2, ih (fun x hx => hall x (List.mem_cons_of_mem _ hx))]

/-- Shared helper: the pair trace of a fully successful report run over any
category list. -/
theorem flatMap_pairs (assess : String → String → Option Assessment)
    (htag : ∀ c k a, assess c k = some a → a.category = c ∧ a.country = k) :
    ∀ cats : List String,
      (∀ c ∈ cats, ∀ k ∈ countries_to_analyze c, (assess c k).isSome) →
      (cats.flatMap (fun c => (countries_to_analyze c).filterMap (assess c))).map
          (fun a => (a.category, a.country))
        = cats.flatMap (fun c => (countries_to_analyze c).map (fun k => (c, k))) := by
  intro cats
  induction cats with
  | nil => intro h; simp
  | cons c cs ih =>
    intro hall
    simp only [List.flatMap_cons, List.map_append]
    rw [filterMap_pairs_map assess htag c _ (hall c (List.mem_cons_self c cs)),
      ih (fun x hx => hall x (List.mem_cons_of_mem _ hx))]

/-- C3: when no (category, country) pair fails, the run produces exactly
2*1 + 9*20 = 182 assessments, whose (category, country) pairs are exactly:
for each of the two global-scope categories one assessment with country
"Global", and for each of the other nine categories one assessment per
country of the fixed 20-country list — in taxonomy order, then list order. -/
theorem c3_full_report_shape (openai_api_key : Option String)
    (json_loads : String → Option PyVal)
    (llm : String → String → LLMReply) (rand : String → String → ℚ)
    (clock : String → String → String)
    (hok : ∀ c ∈ categories, ∀ k ∈ countries_to_analyze c,
      (assess_category_risk c k
        (analyze_risk_with_llm openai_api_key json_loads (llm c k) (rand c k))
        (clock c k)).isSome) :
    (run_generate_report openai_api_key json_loads llm rand clock).length = 182 ∧
    (run_generate_report openai_api_key json_loads llm rand clock).map
        (fun a => (a.category, a.country))
      = categories.flatMap (fun c => (countries_to_analyze c).map (fun k => (c, k))) ∧
    categories.length = 11 ∧ countries.length = 20 := by
  have htag : ∀ c k a,
      assess_category_risk c k
        (analyze_risk_with_llm openai_api_key json_loads (llm c k) (rand c k))
        (clock c k) = some a → a.category = c ∧ a.country = k :=
    fun c k a h => ⟨(assess_category_risk_tags h).1, (assess_category_risk_tags h).2.1⟩
  have hmap : (run_generate_report openai_api_key json_loads llm rand clock).map
      (fun a => (a.category, a.country))
      = categories.flatMap (fun c => (countries_to_analyze c).map (fun k => (c, k))) := by
    simp only [run_generate_report]
    rw [generate_report_eq]
    exact flatMap_pairs _ htag categories hok
  have hlen : (run_generate_report openai_api_key json_loads llm rand clock).length
      = 182 := by
    have hl := congrArg List.length hmap
    rw [List.length_map] at hl
    rw [hl]
    set_option maxRecDepth 8000 in decide
  exact ⟨hlen, hmap, rfl, rfl⟩

theorem c3_full_report_shape_witness :
    (run_generate_report (some "sk-test") (fun _ => none)
        (fun _ _ => .failure "boom") (fun _ _ => 2) (fun _ _ => "t")).length = 182 ∧
    (run_generate_report (some "sk-test") (fun _ => none)
        (fun _ _ => .failure "boom") (fun _ _ => 2) (fun _ _ => "t")).map
        (fun a => (a.category, a.country))
      = categories.flatMap (fun c => (countries_to_analyze c).map (fun k => (c, k))) ∧
    categories.length = 11 ∧ countries.length = 20 :=
  c3_full_report_shape (some "sk-test") (fun _ => none)
    (fun _ _ => .failure "boom") (fun _ _ => 2) (fun _ _ => "t")
    (fun _ _ _ _ => rfl)

/-- Shared helper: the pandas formula `close[i]/close[i-1] - 1` agrees with
the spec wording `(close[i] - close[i-1])/close[i-1]` whenever no closing
price is zero. -/
theorem pct_change_eq_spec (closes : List ℚ) (h : ∀ c ∈ closes, c ≠ 0) :
    pct_change closes = spec_day_over_day_change closes := by
  unfold pct_change spec_day_over_day_change
  apply List.map_congr_left
  intro p hp
  have hne : p.1 ≠ 0 := h p.1 (List.of_mem_zip hp).1
  rw [sub_div, div_self hne]

/-- C8: the market data adapter maps a fetched price history to the record
whose latest_price is the last closing price of the series, whose volatility
is the standard deviation of the day-over-day percentage change of the
closing price expressed as a percentage (shown against the spec-side
definition, for series with no zero closing price), and whose volume entry
is the mean traded volume; it returns the empty mapping (`none`) when the
fetch raises or when the series is empty. -/
theorem c8_financial_adapter (hist : List (ℚ × ℚ)) (hne : hist ≠ [])
    (hpos : ∀ p ∈ hist, p.1 ≠ 0) :
    get_financial_data none = none ∧
    get_financial_data (some []) = none ∧
    ∃ d, get_financial_data (some hist) = some d ∧
      d.latest_price = ((hist.map Prod.fst).getLast?).getD 0 ∧
      d.volatility = spec_volatility (hist.map Prod.fst) ∧
      d.volume = listMean (hist.map Prod.snd) := by
  refine ⟨rfl, rfl, ?_⟩
  have hclosed : ∀ c ∈ hist.map Prod.fst, c ≠ 0 := by
    intro c hc
    obtain ⟨p, hp, rfl⟩ := List.mem_map.mp hc
    exact hpos p hp
  have hv : sampleStd (pct_change (hist.map Prod.fst)) * 100
      = spec_volatility (hist.map Prod.fst) := by
    rw [spec_volatility, pct_change_eq_spec _ hclosed]
  have hEmpty : hist.isEmpty = false := by
    cases hist with
    | nil => exact absurd rfl hne
    | cons p t => rfl
  refine ⟨{ latest_price := ((hist.map Prod.fst).getLast?).getD 0,
            volatility := sampleStd (pct_change (hist.map Prod.fst)) * 100,
            volume := listMean (hist.map Prod.snd) }, ?_, rfl, hv, rfl⟩
  simp [get_financial_data, hEmpty]

theorem c8_financial_adapter_witness :
    get_financial_data none = none ∧
    get_financial_data (some []) = none ∧
    ∃ d, get_financial_data (some [(1, 10), (2, 20), (4, 40)]) = some d ∧
      d.latest_price
        = ((([(1, 10), (2, 20), (4, 40)] : List (ℚ × ℚ)).map Prod.fst).getLast?).getD 0 ∧
      d.volatility
        = spec_volatility (([(1, 10), (2, 20), (4, 40)] : List (ℚ × ℚ)).map Prod.fst) ∧
      d.volume = listMean (([(1, 10), (2, 20), (4, 40)] : List (ℚ × ℚ)).map Prod.snd) :=
  c8_financial_adapter [(1, 10), (2, 20), (4, 40)] (by decide) (by decide)

/-- Shared helper: the (key, value) cell at row `i`, column `j` of the
converted record list. -/
theorem readCsvRecords_cell (t : CsvTable) (i j : ℕ)
    (hi : i < t.rows.length) (hj : j < t.header.length) :
    ((readCsvRecords t).getD i []).getD j ("", .pnull)
      = (t.header.getD j "",
         if numericCol t j then
           PyVal.pnum ((csvCellNum ((t.rows.getD i []).getD j "")).getD 0)
         else PyVal.pstr ((t.rows.getD i []).getD j "")) := by
  have hi2 : i < (readCsvRecords t).length := by
    simpa [readCsvRecords] using hi
  rw [List.getD_eq_getElem _ _ hi2]
  simp only [readCsvRecords, List.getElem_map]
  have hj2 : j < (t.header.zip ((List.range t.header.length).map (fun k =>
      if numericCol t k then
        PyVal.pnum ((csvCellNum ((t.rows[i]).getD k "")).getD 0)
      else PyVal.pstr ((t.rows[i]).getD k "")))).length := by
    rw [List.length_zip, List.length_map, List.length_range, min_self]
    exact hj
  rw [List.getD_eq_getElem _ _ hj2, List.getElem_zip, List.getElem_map,
    List.getElem_range, List.getD_eq_getElem _ _ hj, List.getD_eq_getElem _ _ hi]

/-- C6 counterexample: converting the table with header Country and
Risk Score (0-10) and the single row (X, 3.2) produces the number 3.2
(16/5) for the score cell, not the identical string "3.2" — pandas parses
the all-numeric column — refuting the no-type-coercion half of the claim (the
default output path, however, is the input path with extension .json, as
claimed). -/
theorem c6_counterexample :
    (convert_csv_to_json "geopolitical_risk_report.csv"
        { header := ["Country", "Risk Score (0-10)"], rows := [["X", "3.2"]] } none).2
      = [[("Country", PyVal.pstr "X"), ("Risk Score (0-10)", PyVal.pnum (mkRat 32 10))]] ∧
    (convert_csv_to_json "geopolitical_risk_report.csv"
        { header := ["Country", "Risk Score (0-10)"], rows := [["X", "3.2"]] } none).1
      = "geopolitical_risk_report.json" ∧
    PyVal.pnum (mkRat 32 10) ≠ PyVal.pstr "3.2" :=
  ⟨rfl, rfl, nofun⟩

/-- C6 amended: converting a tabular (CSV) file yields exactly one object
per data row with keys taken from the header in order; each value is the
identical cell string except in columns whose every cell parses as a
number, where pandas type inference stores the parsed number instead (so
cell "3.2" becomes the number 3.2); when no output path is given, the
output path is the input path with its extension replaced by `.json`. -/
theorem c6_amended_csv_conversion (csv_file_path : String) (table : CsvTable) :
    (convert_csv_to_json csv_file_path table none).1 = with_suffix_json csv_file_path ∧
    (convert_csv_to_json csv_file_path table none).2.length = table.rows.length ∧
    (∀ rec ∈ (convert_csv_to_json csv_file_path table none).2,
        rec.map Prod.fst = table.header) ∧
    (∀ i j, i < table.rows.length → j < table.header.length →
      numericCol table j = false →
      (((convert_csv_to_json csv_file_path table none).2.getD i []).getD j ("", .pnull))
        = (table.header.getD j "", .pstr ((table.rows.getD i []).getD j ""))) ∧
    (∀ i j q, i < table.rows.length → j < table.header.length →
      numericCol table j = true →
      csvCellNum ((table.rows.getD i []).getD j "") = some q →
      (((convert_csv_to_json csv_file_path table none).2.getD i []).getD j ("", .pnull))
        = (table.header.getD j "", .pnum q)) := by
  refine ⟨rfl, by simp [convert_csv_to_json, readCsvRecords], ?_, ?_, ?_⟩
  · intro rec hrec
    simp only [convert_csv_to_json, readCsvRecords, List.mem_map] at hrec
    obtain ⟨r, -, rfl⟩ := hrec
    exact List.map_fst_zip _ _ (by rw [List.length_map, List.length_range])
  · intro i j hi hj hnum
    rw [show (convert_csv_to_json csv_file_path table none).2 = readCsvRecords table
        from rfl,
      readCsvRecords_cell table i j hi hj, hnum]
    simp
  · intro i j q hi hj hnum hq
    rw [show (convert_csv_to_json csv_file_path table none).2 = readCsvRecords table
        from rfl,
      readCsvRecords_cell table i j hi hj, hnum, hq]
    simp

theorem c6_amended_csv_conversion_witness :
    (convert_csv_to_json "report.csv"
        { header := ["Country", "Risk Score (0-10)"],
          rows := [["X", "3.2"], ["Y", "7"]] } none).1
      = with_suffix_json "report.csv" ∧
    (((convert_csv_to_json "report.csv"
        { header := ["Country", "Risk Score (0-10)"],
          rows := [["X", "3.2"], ["Y", "7"]] } none).2.getD 0 []).getD 0 ("", .pnull))
      = ("Country", .pstr "X") ∧
    (((convert_csv_to_json "report.csv"
        { header := ["Country", "Risk Score (0-10)"],
          rows := [["X", "3.2"], ["Y", "7"]] } none).2.getD 0 []).getD 1 ("", .pnull))
      = ("Risk Score (0-10)", .pnum (mkRat 32 10)) :=
  ⟨(c6_amended_csv_conversion "report.csv"
      { header := ["Country", "Risk Score (0-10)"],
        rows := [["X", "3.2"], ["Y", "7"]] }).1,
   (c6_amended_csv_conversion "report.csv"
      { header := ["Country", "Risk Score (0-10)"],
        rows := [["X", "3.2"], ["Y", "7"]] }).2.2.2.1 0 0
     (by decide) (by decide) (by decide),
   (c6_amended_csv_conversion "report.csv"
      { header := ["Country", "Risk Score (0-10)"],
        rows := [["X", "3.2"], ["Y", "7"]] }).2.2.2.2 0 1 (mkRat 32 10)
     (by decide) (by decide) (by decide) (by decide)⟩
